import Mathlib

/-!
# Verification of the MCP TypeScript SDK OAuth reference provider and auth router

Shallow embedding of `src/examples/server/inMemoryOAuthProvider.ts` (the
in-memory OAuth server provider) and of the auth-router module
(`mcpAuthRouter` / `checkIssuerUrl` / metadata construction).

Modelling conventions:
* JavaScript `Map<string, V>` becomes an association list `List (String × V)`
  with `mapGet` / `mapSet` / `mapDelete` mirroring `get` / `set` / `delete`.
* `Date.now()` (milliseconds) and `randomUUID()` results are explicit
  parameters (`now : Nat`, fresh `code` / `token` strings).
* A thrown `Error` becomes an `Except`-style error value; stateful methods
  return `ProviderState × Except ProviderError α`, keeping the pre-state on
  the error paths exactly where the source throws before mutating.
* Parsed URLs (`new URL(...)` applied to a redirect URI) are modelled
  structurally: `UrlModel` is a URL split into its non-query part (`base`)
  and its query pairs (`search`); assigning `targetUrl.search` replaces the
  query component, exactly as the DOM URL setter does.
-/

/-- An association-list read mirroring JavaScript `Map.get`. -/
def mapGet {α : Type} (m : List (String × α)) (k : String) : Option α :=
  (m.find? (fun p => p.1 == k)).map (fun p => p.2)

/-- An association-list write mirroring JavaScript `Map.set`
(replace any existing binding for the key). -/
def mapSet {α : Type} (m : List (String × α)) (k : String) (v : α) :
    List (String × α) :=
  (k, v) :: m.filter (fun p => !(p.1 == k))

/-- An association-list removal mirroring JavaScript `Map.delete`. -/
def mapDelete {α : Type} (m : List (String × α)) (k : String) :
    List (String × α) :=
  m.filter (fun p => !(p.1 == k))

/-- A parsed URL as used for redirect targets: `base` is everything outside
the query component (scheme, host, path), `search` the query parameters. -/
structure UrlModel where
  base : String
  search : List (String × String)
  deriving DecidableEq, Repr

/-- OAuth client information as the in-memory provider uses it:
the client identity and its registered redirect URIs. -/
structure OAuthClientInformationFull where
  client_id : String
  redirect_uris : List UrlModel
  deriving DecidableEq, Repr

/-- The `AuthorizationParams` record handed to `authorize`.  The in-memory
provider reads `codeChallenge` and `scopes`; `redirectUri` and `state` are
the remaining fields of the params record described by the spec
(redirect_uri requested by the client, opaque CSRF state). -/
structure AuthorizationParams where
  codeChallenge : String
  scopes : Option (List String)
  redirectUri : UrlModel
  state : Option String
  deriving DecidableEq, Repr

/-- The record stored in the provider's `codes` map: the authorization
params and the client the code was issued to. -/
structure CodeData where
  params : AuthorizationParams
  client : OAuthClientInformationFull
  deriving DecidableEq, Repr

/-- The record stored in the provider's `tokens` map (`AuthInfo`-shaped
object built in `exchangeAuthorizationCode`): token string, owning client,
scopes, expiry instant in milliseconds, and the token kind string
(the source writes the literal string `'access'`). -/
structure TokenData where
  token : String
  clientId : String
  scopes : List String
  expiresAt : Nat
  type : String
  deriving DecidableEq, Repr

/-- The `AuthInfo` value returned by a successful `verifyAccessToken`
(expiry converted from milliseconds to whole seconds). -/
structure AuthInfo where
  token : String
  clientId : String
  scopes : List String
  expiresAt : Nat
  deriving DecidableEq, Repr

/-- The `OAuthTokens` response of a successful code exchange. -/
structure OAuthTokens where
  access_token : String
  token_type : String
  expires_in : Nat
  scope : String
  deriving DecidableEq, Repr

/-- Decidable equality of `Except` results, so concrete runs can be
checked by evaluation. -/
instance exceptDecidableEq {ε α : Type} [DecidableEq ε] [DecidableEq α] :
    DecidableEq (Except ε α) := fun x y =>
  match x, y with
  | .ok a, .ok b =>
    if h : a = b then .isTrue (by rw [h])
    else .isFalse (by intro he; cases he; exact h rfl)
  | .error a, .error b =>
    if h : a = b then .isTrue (by rw [h])
    else .isFalse (by intro he; cases he; exact h rfl)
  | .ok _, .error _ => .isFalse (by intro he; cases he)
  | .error _, .ok _ => .isFalse (by intro he; cases he)

/-- The errors thrown by the in-memory provider, one constructor per
`throw new Error(...)` site (the `clientMismatch` constructor carries the
two client ids interpolated into the source's message). -/
inductive ProviderError where
  | invalidAuthorizationCode : ProviderError
  | clientMismatch : String → String → ProviderError
  | notImplemented : ProviderError
  | invalidOrExpiredToken : ProviderError
  deriving DecidableEq, Repr

/-- Modelled from the spec: the error-taxonomy mapping of §7 lives in the
HTTP token handler, which is not part of the embedded sources; per the
spec's taxonomy, an unknown/replayed authorization code and a client-code
ownership mismatch both surface as `InvalidGrant`. -/
def ProviderError.isInvalidGrant : ProviderError → Bool
  | .invalidAuthorizationCode => true
  | .clientMismatch _ _ => true
  | _ => false

/-- The mutable state of an `InMemoryAuthProvider`: the `codes` map and the
`tokens` map. -/
structure ProviderState where
  codes : List (String × CodeData)
  tokens : List (String × TokenData)
  deriving DecidableEq, Repr

/-- The state of a freshly constructed provider: both maps empty. -/
def initialState : ProviderState := ⟨[], []⟩

/-- `InMemoryAuthProvider.authorize`: stores `{client, params}` keyed by the
fresh `code`, then builds the redirect target from `client.redirect_uris[0]`
with its query replaced by the single `code` parameter.  When
`redirect_uris` is empty the source's `new URL(undefined)` throws *after*
the code record was inserted, hence the `Option` redirect paired with the
already-updated state. -/
def authorize (st : ProviderState) (client : OAuthClientInformationFull)
    (params : AuthorizationParams) (code : String) :
    ProviderState × Option UrlModel :=
  let st' : ProviderState :=
    { st with codes := mapSet st.codes code ⟨params, client⟩ }
  match client.redirect_uris with
  | [] => (st', none)
  | u :: _ => (st', some { base := u.base, search := [("code", code)] })

/-- `InMemoryAuthProvider.challengeForAuthorizationCode`: returns the stored
`codeChallenge` for the code, throwing on an unknown code. -/
def challengeForAuthorizationCode (st : ProviderState)
    (_client : OAuthClientInformationFull) (authorizationCode : String) :
    Except ProviderError String :=
  match mapGet st.codes authorizationCode with
  | none => .error .invalidAuthorizationCode
  | some codeData => .ok codeData.params.codeChallenge

/-- `InMemoryAuthProvider.exchangeAuthorizationCode`: looks up the code
(throwing on absence), checks the issuing client's id against the
presenting client's id (throwing on mismatch), deletes the code, mints an
`access` token with a 3600000 ms (one hour) TTL, stores it, and returns the
token response.  The `codeVerifier` argument is accepted and ignored,
exactly as the source's unused `_codeVerifier` parameter is. -/
def exchangeAuthorizationCode (st : ProviderState)
    (client : OAuthClientInformationFull) (authorizationCode : String)
    (_codeVerifier : Option String) (now : Nat) (token : String) :
    ProviderState × Except ProviderError OAuthTokens :=
  match mapGet st.codes authorizationCode with
  | none => (st, .error .invalidAuthorizationCode)
  | some codeData =>
    if codeData.client.client_id ≠ client.client_id then
      (st, .error (.clientMismatch codeData.client.client_id client.client_id))
    else
      let codes' := mapDelete st.codes authorizationCode
      let tokenData : TokenData :=
        { token := token
          clientId := client.client_id
          scopes := codeData.params.scopes.getD []
          expiresAt := now + 3600000
          type := "access" }
      ({ codes := codes', tokens := mapSet st.tokens token tokenData },
       .ok { access_token := token
             token_type := "Bearer"
             expires_in := 3600
             scope := String.intercalate " " (codeData.params.scopes.getD []) })

/-- `InMemoryAuthProvider.exchangeRefreshToken`: unconditionally throws
`Error('Not implemented for example demo')`, touching neither map. -/
def exchangeRefreshToken (st : ProviderState)
    (_client : OAuthClientInformationFull) (_refreshToken : String)
    (_scopes : Option (List String)) :
    ProviderState × Except ProviderError OAuthTokens :=
  (st, .error .notImplemented)

/-- `InMemoryAuthProvider.verifyAccessToken`: looks the token up and throws
if it is absent, if `expiresAt < Date.now()`, or if its kind is the string
`'refresh'`; on success returns the `AuthInfo` with `expiresAt` floored to
seconds.  A pure read: it takes no state out. -/
def verifyAccessToken (st : ProviderState) (token : String) (now : Nat) :
    Except ProviderError AuthInfo :=
  match mapGet st.tokens token with
  | none => .error .invalidOrExpiredToken
  | some tokenData =>
    if tokenData.expiresAt < now ∨ tokenData.type = "refresh" then
      .error .invalidOrExpiredToken
    else
      .ok { token := token
            clientId := tokenData.clientId
            scopes := tokenData.scopes
            expiresAt := tokenData.expiresAt / 1000 }

/-! ## The auth router module (`checkIssuerUrl`, `mcpAuthRouter`, metadata) -/

/-- A WHATWG `URL` as the router reads it: `protocol` (with trailing
colon), `hostname`, `hash` and `search` (empty string when the fragment or
query is absent, as the URL API yields), `origin` and `pathname`, from
which `href` is assembled. -/
structure URLRecord where
  protocol : String
  hostname : String
  hash : String
  search : String
  origin : String
  pathname : String
  deriving DecidableEq, Repr

/-- `URL.href` for a `URLRecord`. -/
def URLRecord.href (u : URLRecord) : String :=
  u.origin ++ u.pathname ++ u.search ++ u.hash

/-- `new URL(path, base).href` for the absolute paths (`"/authorize"`,
`"/token"`, …) the router resolves: the base's origin with the path
substituted. -/
def resolveHref (path : String) (base : URLRecord) : String :=
  base.origin ++ path

/-- `checkIssuerUrl`: throws unless the scheme is `https:` (with a
`localhost` / `127.0.0.1` exemption), the fragment is absent, and the
query string is absent. -/
def checkIssuerUrl (issuer : URLRecord) : Except String Unit :=
  if issuer.protocol ≠ "https:" ∧ issuer.hostname ≠ "localhost" ∧
      issuer.hostname ≠ "127.0.0.1" then
    .error "Issuer URL must be HTTPS"
  else if issuer.hash ≠ "" then
    .error "Issuer URL must not have a fragment"
  else if issuer.search ≠ "" then
    .error "Issuer URL must not have a query string"
  else
    .ok ()

/-- The capability surface of an `OAuthServerProvider` as the router
inspects it: whether `clientsStore.registerClient` and `revokeToken` are
present (the source tests the optional methods for truthiness). -/
structure ProviderCapabilities where
  hasRegisterClient : Bool
  hasRevokeToken : Bool
  deriving DecidableEq, Repr

/-- `AuthRouterOptions` (the fields the metadata construction reads). -/
structure AuthRouterOptions where
  provider : ProviderCapabilities
  issuerUrl : URLRecord
  baseUrl : Option URLRecord
  serviceDocumentationUrl : Option URLRecord
  scopesSupported : Option (List String)
  deriving DecidableEq, Repr

/-- The RFC 8414 authorization-server metadata document; optional members
are `Option`s, `none` meaning the field is absent from the document (the
source sets them to `undefined`, which JSON serialization omits). -/
structure OAuthMetadata where
  issuer : String
  service_documentation : Option String
  authorization_endpoint : String
  response_types_supported : List String
  code_challenge_methods_supported : List String
  token_endpoint : String
  token_endpoint_auth_methods_supported : List String
  grant_types_supported : List String
  scopes_supported : Option (List String)
  revocation_endpoint : Option String
  revocation_endpoint_auth_methods_supported : Option (List String)
  registration_endpoint : Option String
  deriving DecidableEq, Repr

/-- The metadata document `mcpAuthRouter` builds (source lines computing
`registration_endpoint`, `revocation_endpoint` and the `metadata`
object literal). -/
def mcpAuthRouterMetadata (options : AuthRouterOptions) : OAuthMetadata :=
  let issuer := options.issuerUrl
  let base := options.baseUrl.getD issuer
  let registration_endpoint : Option String :=
    if options.provider.hasRegisterClient then some "/register" else none
  let revocation_endpoint : Option String :=
    if options.provider.hasRevokeToken then some "/revoke" else none
  { issuer := issuer.href
    service_documentation := options.serviceDocumentationUrl.map URLRecord.href
    authorization_endpoint := resolveHref "/authorize" base
    response_types_supported := ["code"]
    code_challenge_methods_supported := ["S256"]
    token_endpoint := resolveHref "/token" base
    token_endpoint_auth_methods_supported := ["client_secret_post"]
    grant_types_supported := ["authorization_code", "refresh_token"]
    scopes_supported := options.scopesSupported
    revocation_endpoint := revocation_endpoint.map (resolveHref · base)
    revocation_endpoint_auth_methods_supported :=
      revocation_endpoint.map (fun _ => ["client_secret_post"])
    registration_endpoint := registration_endpoint.map (resolveHref · base) }

/-- `mcpAuthRouter`: validates the issuer URL first (`checkIssuerUrl` runs
before any route is installed), then produces the metadata document and
the routes the router registers; a validation failure propagates and no
route is registered. -/
def mcpAuthRouter (options : AuthRouterOptions) :
    Except String (OAuthMetadata × List String) :=
  match checkIssuerUrl options.issuerUrl with
  | .error e => .error e
  | .ok _ =>
    let metadata := mcpAuthRouterMetadata options
    let routes : List String :=
      ["/authorize", "/token", "/.well-known/oauth-authorization-server",
        "/.well-known/oauth-protected-resource"] ++
      (if options.provider.hasRegisterClient then ["/register"] else []) ++
      (if options.provider.hasRevokeToken then ["/revoke"] else [])
    .ok (metadata, routes)

/-! ## Reachable provider states -/

/-- One provider operation, viewed through its effect on the stored maps
(`verifyAccessToken` and `challengeForAuthorizationCode` read but never
write, so they induce no step). -/
inductive Step : ProviderState → ProviderState → Prop where
  | authorize (st : ProviderState) (client : OAuthClientInformationFull)
      (params : AuthorizationParams) (code : String) :
      Step st (authorize st client params code).1
  | exchangeCode (st : ProviderState) (client : OAuthClientInformationFull)
      (authorizationCode : String) (codeVerifier : Option String)
      (now : Nat) (token : String) :
      Step st (exchangeAuthorizationCode st client authorizationCode
        codeVerifier now token).1
  | exchangeRefresh (st : ProviderState)
      (client : OAuthClientInformationFull) (refreshToken : String)
      (scopes : Option (List String)) :
      Step st (exchangeRefreshToken st client refreshToken scopes).1

/-- The states an `InMemoryAuthProvider` can reach from construction. -/
def Reachable (st : ProviderState) : Prop :=
  Relation.ReflTransGen Step initialState st

/-! ## Spec-side definition for the refinement comparison -/

/-- The redirect target exactly as the specification's `authorize`
describes it (built from the spec's words, for comparison with the
source's behaviour): the requested `redirect_uri` with `code`, and `state`
when present, appended as query parameters. -/
def specAuthorizeRedirectTarget (p : AuthorizationParams) (code : String) :
    UrlModel :=
  { base := p.redirectUri.base
    search := p.redirectUri.search ++ [("code", code)] ++
      (match p.state with | some s => [("state", s)] | none => []) }

/-! ## Concrete fixtures (the spec's scenario data) -/

/-- The redirect URI registered for the scenario client `c1`. -/
def cbUri : UrlModel := ⟨"https://app.example.com/cb", []⟩

/-- The scenario client `c1`. -/
def exampleClient : OAuthClientInformationFull := ⟨"c1", [cbUri]⟩

/-- A second client, used to exercise ownership mismatches. -/
def otherClient : OAuthClientInformationFull :=
  ⟨"c2", [⟨"https://attacker.example.net/cb", []⟩]⟩

/-- Authorization params carrying a stored challenge, one scope, the
registered redirect URI, and a CSRF state. -/
def exampleParams : AuthorizationParams :=
  ⟨"challenge1", some ["profile"], cbUri, some "st8"⟩

/-- A provider state holding the single authorization code `X`, issued to
`exampleClient` with `exampleParams`. -/
def exampleCodeState : ProviderState :=
  ⟨[("X", ⟨exampleParams, exampleClient⟩)], []⟩

/-- Authorization params whose requested `redirect_uri` differs from the
client's registered one and which carry a `state`. -/
def divergentParams : AuthorizationParams :=
  ⟨"challenge2", some ["profile"], ⟨"https://requested.example.com/cb2", [("k", "v")]⟩,
    some "xyz"⟩

/-- The issuer URL `http://auth.example.com` of the spec's rejection
scenario: scheme `http:`, host neither `localhost` nor `127.0.0.1`. -/
def httpIssuer : URLRecord :=
  ⟨"http:", "auth.example.com", "", "", "http://auth.example.com", "/"⟩

/-- A well-formed `https` issuer URL. -/
def httpsIssuer : URLRecord :=
  ⟨"https:", "auth.example.com", "", "", "https://auth.example.com", "/"⟩

/-- Router options for `httpIssuer` with both optional capabilities. -/
def httpIssuerOptions : AuthRouterOptions :=
  ⟨⟨true, true⟩, httpIssuer, none, none, none⟩

/-- A provider state holding one access token `t` expiring at instant
1000 ms. -/
def exampleTokenState : ProviderState :=
  ⟨[], [("t", ⟨"t", "c1", [], 1000, "access"⟩)]⟩

/-- The state reached from a fresh provider by `authorize` (issuing code
`X` to `exampleClient`) followed by a successful exchange of `X` minting
token `tok` at instant 0. -/
def reachedState : ProviderState :=
  (exchangeAuthorizationCode
    (authorize initialState exampleClient exampleParams "X").1
    exampleClient "X" none 0 "tok").1

/-! ## Helper lemmas about the map model -/

theorem mapGet_mapSet_self {α : Type} (m : List (String × α)) (k : String)
    (v : α) : mapGet (mapSet m k v) k = some v := by
  simp [mapGet, mapSet, List.find?]

theorem mapGet_mapDelete_self {α : Type} (m : List (String × α))
    (k : String) : mapGet (mapDelete m k) k = none := by
  unfold mapGet mapDelete
  rw [Option.map_eq_none', List.find?_eq_none]
  intro p hp
  have := List.of_mem_filter hp
  simpa using this

theorem mapGet_mapDelete_ne {α : Type} (m : List (String × α))
    (k k' : String) (h : k' ≠ k) :
    mapGet (mapDelete m k) k' = mapGet m k' := by
  unfold mapGet mapDelete
  rw [List.find?_filter]
  have hp : (fun a : String × α => decide ((!(a.1 == k)) = true ∧ (a.1 == k') = true))
      = fun a : String × α => a.1 == k' := by
    funext a
    by_cases ha : a.1 = k'
    · have hak : (a.1 == k) = false := by
        subst ha
        simp
        exact fun hh => absurd hh h
      simp [ha, hak]
      exact h
    · simp [ha]
  rw [hp]

theorem mapGet_mapSet_ne {α : Type} (m : List (String × α)) (k k' : String)
    (v : α) (h : k' ≠ k) : mapGet (mapSet m k v) k' = mapGet m k' := by
  have hd := mapGet_mapDelete_ne m k k' h
  unfold mapGet mapDelete at hd
  unfold mapGet mapSet
  have hk : (((k, v) : String × α).1 == k') = false := by
    simp
    exact fun hh => absurd hh.symm h
  rw [List.find?_cons_of_neg _ (by simp [hk])]
  exact hd

theorem mapSet_length_of_fresh {α : Type} (m : List (String × α))
    (k : String) (v : α) (h : mapGet m k = none) :
    (mapSet m k v).length = m.length + 1 := by
  unfold mapGet at h
  rw [Option.map_eq_none', List.find?_eq_none] at h
  unfold mapSet
  have : m.filter (fun p => !(p.1 == k)) = m := by
    apply List.filter_eq_self.mpr
    intro p hp
    simpa using h p hp
  simp [this]

theorem mem_mapSet {α : Type} (m : List (String × α)) (k : String) (v : α)
    (p : String × α) (hp : p ∈ mapSet m k v) : p = (k, v) ∨ p ∈ m := by
  unfold mapSet at hp
  rcases List.mem_cons.mp hp with h | h
  · exact Or.inl h
  · exact Or.inr (List.mem_of_mem_filter h)

theorem mapGet_mem {α : Type} (m : List (String × α)) (k : String) (v : α)
    (h : mapGet m k = some v) : ∃ p ∈ m, p.1 = k ∧ p.2 = v := by
  unfold mapGet at h
  rw [Option.map_eq_some'] at h
  obtain ⟨p, hfind, hv⟩ := h
  refine ⟨p, List.mem_of_find?_eq_some hfind, ?_, hv⟩
  have := List.find?_some hfind
  simpa using this

/-! ## Structural lemmas about the provider operations -/

theorem authorize_fst (st : ProviderState) (c : OAuthClientInformationFull)
    (p : AuthorizationParams) (code : String) :
    (authorize st c p code).1 =
      { st with codes := mapSet st.codes code ⟨p, c⟩ } := by
  unfold authorize
  cases hc : c.redirect_uris <;> simp [hc]

theorem exchangeAuthorizationCode_absent (st : ProviderState)
    (c : OAuthClientInformationFull) (ac : String) (v : Option String)
    (now : Nat) (tok : String) (hc : mapGet st.codes ac = none) :
    exchangeAuthorizationCode st c ac v now tok =
      (st, .error .invalidAuthorizationCode) := by
  unfold exchangeAuthorizationCode
  rw [hc]

theorem exchangeAuthorizationCode_found (st : ProviderState)
    (c : OAuthClientInformationFull) (ac : String) (v : Option String)
    (now : Nat) (tok : String) (cd : CodeData)
    (hc : mapGet st.codes ac = some cd)
    (hid : cd.client.client_id = c.client_id) :
    exchangeAuthorizationCode st c ac v now tok =
      ({ codes := mapDelete st.codes ac,
         tokens := mapSet st.tokens tok
           ⟨tok, c.client_id, cd.params.scopes.getD [], now + 3600000, "access"⟩ },
       .ok ⟨tok, "Bearer", 3600,
         String.intercalate " " (cd.params.scopes.getD [])⟩) := by
  unfold exchangeAuthorizationCode
  rw [hc]
  simp [hid]

theorem exchangeAuthorizationCode_mismatch (st : ProviderState)
    (c : OAuthClientInformationFull) (ac : String) (v : Option String)
    (now : Nat) (tok : String) (cd : CodeData)
    (hc : mapGet st.codes ac = some cd)
    (hid : cd.client.client_id ≠ c.client_id) :
    exchangeAuthorizationCode st c ac v now tok =
      (st, .error (.clientMismatch cd.client.client_id c.client_id)) := by
  unfold exchangeAuthorizationCode
  rw [hc]
  simp [hid]

theorem exchangeAuthorizationCode_ok_inv (st : ProviderState)
    (c : OAuthClientInformationFull) (ac : String) (v : Option String)
    (now : Nat) (tok : String) (resp : OAuthTokens)
    (h : (exchangeAuthorizationCode st c ac v now tok).2 = .ok resp) :
    ∃ cd, mapGet st.codes ac = some cd ∧ cd.client.client_id = c.client_id ∧
      (exchangeAuthorizationCode st c ac v now tok).1.codes =
        mapDelete st.codes ac := by
  cases hc : mapGet st.codes ac with
  | none =>
    rw [exchangeAuthorizationCode_absent st c ac v now tok hc] at h
    exact absurd h (by simp)
  | some cd =>
    by_cases hid : cd.client.client_id = c.client_id
    · exact ⟨cd, rfl, hid,
        by rw [exchangeAuthorizationCode_found st c ac v now tok cd hc hid]⟩
    · rw [exchangeAuthorizationCode_mismatch st c ac v now tok cd hc hid] at h
      exact absurd h (by simp)

theorem exchangeAuthorizationCode_fst_tokens (st : ProviderState)
    (c : OAuthClientInformationFull) (ac : String) (v : Option String)
    (now : Nat) (tok : String) :
    (exchangeAuthorizationCode st c ac v now tok).1.tokens = st.tokens ∨
    ∃ cd, mapGet st.codes ac = some cd ∧
      (exchangeAuthorizationCode st c ac v now tok).1.tokens =
        mapSet st.tokens tok
          ⟨tok, c.client_id, cd.params.scopes.getD [], now + 3600000,
            "access"⟩ := by
  cases hc : mapGet st.codes ac with
  | none => left; rw [exchangeAuthorizationCode_absent st c ac v now tok hc]
  | some cd =>
    by_cases hid : cd.client.client_id = c.client_id
    · right
      exact ⟨cd, rfl,
        by rw [exchangeAuthorizationCode_found st c ac v now tok cd hc hid]⟩
    · left; rw [exchangeAuthorizationCode_mismatch st c ac v now tok cd hc hid]

theorem verifyAccessToken_absent (st : ProviderState) (t : String)
    (now : Nat) (h : mapGet st.tokens t = none) :
    verifyAccessToken st t now = .error .invalidOrExpiredToken := by
  unfold verifyAccessToken
  rw [h]

theorem verifyAccessToken_found (st : ProviderState) (t : String)
    (now : Nat) (td : TokenData) (h : mapGet st.tokens t = some td) :
    verifyAccessToken st t now =
      if td.expiresAt < now ∨ td.type = "refresh" then
        .error .invalidOrExpiredToken
      else
        .ok ⟨t, td.clientId, td.scopes, td.expiresAt / 1000⟩ := by
  unfold verifyAccessToken
  rw [h]

/-! ## Claim theorems -/

/-- **C5.** For every stored authorization code and every client whose
`client_id` differs from the `client_id` recorded with the code,
`exchangeAuthorizationCode` fails with the client-mismatch error (an
`InvalidGrant` in the spec's taxonomy) regardless of the supplied
`code_verifier`, and returns the state unchanged: neither the code store
nor the token store is modified. -/
theorem C5_exchange_client_mismatch (st : ProviderState)
    (c : OAuthClientInformationFull) (ac : String) (v : Option String)
    (now : Nat) (tok : String) (cd : CodeData)
    (hc : mapGet st.codes ac = some cd)
    (hne : cd.client.client_id ≠ c.client_id) :
    exchangeAuthorizationCode st c ac v now tok =
      (st, .error (.clientMismatch cd.client.client_id c.client_id)) ∧
    (ProviderError.clientMismatch cd.client.client_id
        c.client_id).isInvalidGrant = true :=
  ⟨exchangeAuthorizationCode_mismatch st c ac v now tok cd hc hne, rfl⟩

/-- Witness for C5: client `c2` attempting to redeem the code issued to
`c1`, with the correct verifier, is rejected, and the state is returned
unchanged. -/
theorem C5_exchange_client_mismatch_witness :
    exchangeAuthorizationCode exampleCodeState otherClient "X"
        (some "verifier1") 0 "tok" =
      (exampleCodeState, .error (.clientMismatch "c1" "c2")) ∧
    (ProviderError.clientMismatch "c1" "c2").isInvalidGrant = true :=
  C5_exchange_client_mismatch exampleCodeState otherClient "X"
    (some "verifier1") 0 "tok" ⟨exampleParams, exampleClient⟩
    (by decide) (by decide)

/-- **C6.** Every successful `exchangeAuthorizationCode` mints exactly one
new access token: the token store becomes the old store with the fresh
token inserted, carrying the code's requested scopes and expiring at
`now + 3600` seconds (`now + 3600 * 1000` on the millisecond clock), and
the response is `{access_token, token_type := "Bearer", expires_in := 3600,
scope := requested scopes joined by single spaces}`. -/
theorem C6_exchange_mints_token (st : ProviderState)
    (c : OAuthClientInformationFull) (ac : String) (v : Option String)
    (now : Nat) (tok : String) (cd : CodeData)
    (hc : mapGet st.codes ac = some cd)
    (hid : cd.client.client_id = c.client_id) :
    (exchangeAuthorizationCode st c ac v now tok).1.tokens =
      mapSet st.tokens tok
        ⟨tok, c.client_id, cd.params.scopes.getD [], now + 3600 * 1000,
          "access"⟩ ∧
    (exchangeAuthorizationCode st c ac v now tok).2 =
      .ok ⟨tok, "Bearer", 3600,
        String.intercalate " " (cd.params.scopes.getD [])⟩ := by
  rw [exchangeAuthorizationCode_found st c ac v now tok cd hc hid]
  exact ⟨by norm_num, rfl⟩

/-- Witness for C6: exchanging code `X` at instant 0 mints the access
token `tok` with scope `profile`, expiry 3600000 ms, and the scenario's
`expires_in: 3600` Bearer response. -/
theorem C6_exchange_mints_token_witness :
    (exchangeAuthorizationCode exampleCodeState exampleClient "X"
        (some "verifier1") 0 "tok").1.tokens =
      mapSet exampleCodeState.tokens "tok"
        ⟨"tok", "c1", ["profile"], 0 + 3600 * 1000, "access"⟩ ∧
    (exchangeAuthorizationCode exampleCodeState exampleClient "X"
        (some "verifier1") 0 "tok").2 =
      .ok ⟨"tok", "Bearer", 3600, String.intercalate " " ["profile"]⟩ :=
  C6_exchange_mints_token exampleCodeState exampleClient "X"
    (some "verifier1") 0 "tok" ⟨exampleParams, exampleClient⟩
    (by decide) (by decide)

/-- **C7.** For every input (client, refresh token, requested scopes),
`exchangeRefreshToken` of the reference provider fails with its
not-implemented error — a clean error value, neither a success nor an
unhandled crash — and leaves the code store and the token store
unchanged. -/
theorem C7_exchangeRefreshToken_unsupported (st : ProviderState)
    (c : OAuthClientInformationFull) (rt : String)
    (s : Option (List String)) :
    (exchangeRefreshToken st c rt s).2 = .error .notImplemented ∧
    (exchangeRefreshToken st c rt s).1.codes = st.codes ∧
    (exchangeRefreshToken st c rt s).1.tokens = st.tokens :=
  ⟨rfl, rfl, rfl⟩

/-- **C8.** `mcpAuthRouter` fails (and registers nothing: an error carries
no route list) exactly when `checkIssuerUrl` rejects the issuer, and
`checkIssuerUrl` rejects exactly when the scheme is not `https:` while the
host is neither `localhost` nor `127.0.0.1`, or a fragment is present, or
a query string is present; in particular `http://auth.example.com` is
rejected. -/
theorem C8_issuer_url_validation (issuer : URLRecord)
    (opts : AuthRouterOptions) :
    ((mcpAuthRouter opts).isOk = false ↔
      (checkIssuerUrl opts.issuerUrl).isOk = false) ∧
    ((checkIssuerUrl issuer).isOk = false ↔
      ((issuer.protocol ≠ "https:" ∧ issuer.hostname ≠ "localhost" ∧
          issuer.hostname ≠ "127.0.0.1") ∨
        issuer.hash ≠ "" ∨ issuer.search ≠ "")) ∧
    (mcpAuthRouter httpIssuerOptions).isOk = false := by
  refine ⟨?_, ?_, by decide⟩
  · unfold mcpAuthRouter
    cases h : checkIssuerUrl opts.issuerUrl with
    | error e => simp [h, Except.isOk, Except.toBool]
    | ok u => simp [h, Except.isOk, Except.toBool]
  · unfold checkIssuerUrl
    by_cases h1 : issuer.protocol ≠ "https:" ∧ issuer.hostname ≠ "localhost" ∧
        issuer.hostname ≠ "127.0.0.1"
    · simp [h1, Except.isOk, Except.toBool]
    · by_cases h2 : issuer.hash ≠ ""
      · simp [h1, h2, Except.isOk, Except.toBool]
      · by_cases h3 : issuer.search ≠ ""
        · simp [h1, h2, h3, Except.isOk, Except.toBool]
        · simp [h1, h2, h3, Except.isOk, Except.toBool]

/-- **C9.** The authorization-server metadata contains
`revocation_endpoint` and `revocation_endpoint_auth_methods_supported`
exactly when the provider exposes `revokeToken`, and
`registration_endpoint` exactly when the clients store exposes
`registerClient`; an absent capability leaves the field `none`, i.e.
entirely absent from the serialized document. -/
theorem C9_metadata_capabilities (opts : AuthRouterOptions) :
    ((mcpAuthRouterMetadata opts).revocation_endpoint.isSome
        = opts.provider.hasRevokeToken) ∧
    ((mcpAuthRouterMetadata opts).revocation_endpoint_auth_methods_supported.isSome
        = opts.provider.hasRevokeToken) ∧
    ((mcpAuthRouterMetadata opts).registration_endpoint.isSome
        = opts.provider.hasRegisterClient) := by
  unfold mcpAuthRouterMetadata
  cases hr : opts.provider.hasRevokeToken <;>
    cases hg : opts.provider.hasRegisterClient <;> simp [hr, hg]

/-- **C1**, counterexample to the claimed PKCE check: from the same stored
code `X` (stored challenge `"challenge1"`, as
`challengeForAuthorizationCode` reports), the exchange succeeds with
*both* of the distinct supplied verifiers `"v1"` and `"v2"`.  S256 is a
function, so at most one of the two digests can equal the single stored
challenge; hence at least one of these two succeeding calls had a
mismatching verifier, contradicting "fails with InvalidGrant on
mismatch … succeeds only when the digest matches". -/
theorem C1_counterexample :
    ("v1" : String) ≠ "v2" ∧
    (exchangeAuthorizationCode exampleCodeState exampleClient "X"
        (some "v1") 0 "tok").2.isOk = true ∧
    (exchangeAuthorizationCode exampleCodeState exampleClient "X"
        (some "v2") 0 "tok").2.isOk = true ∧
    challengeForAuthorizationCode exampleCodeState exampleClient "X"
        = .ok "challenge1" := by
  exact ⟨by decide, rfl, rfl, rfl⟩

/-- **C1** (amended): `exchangeAuthorizationCode` performs no PKCE
verification at all: its result is independent of the supplied
`code_verifier`, and whenever the code exists and the issuing client
matches, the exchange succeeds for every verifier.  The stored challenge
is instead exposed to the caller via `challengeForAuthorizationCode`, so
digest comparison is the caller's responsibility, outside this
provider. -/
theorem C1_exchange_ignores_verifier (st : ProviderState)
    (c : OAuthClientInformationFull) (ac : String) (v₁ v₂ : Option String)
    (now : Nat) (tok : String) :
    exchangeAuthorizationCode st c ac v₁ now tok =
      exchangeAuthorizationCode st c ac v₂ now tok ∧
    (∀ cd, mapGet st.codes ac = some cd →
      cd.client.client_id = c.client_id →
      (exchangeAuthorizationCode st c ac v₁ now tok).2.isOk = true) := by
  constructor
  · rfl
  · intro cd hc hid
    rw [exchangeAuthorizationCode_found st c ac v₁ now tok cd hc hid]
    rfl

/-- Witness for C1 (amended): the exchange of code `X` with the verifier
`"wrong"` succeeds. -/
theorem C1_exchange_ignores_verifier_witness :
    (exchangeAuthorizationCode exampleCodeState exampleClient "X"
        (some "wrong") 0 "tok").2.isOk = true :=
  (C1_exchange_ignores_verifier exampleCodeState exampleClient "X"
      (some "wrong") (some "right") 0 "tok").2
    ⟨exampleParams, exampleClient⟩ (by decide) (by decide)

/-- **C2**, counterexample to the claimed inclusive expiry boundary: a
stored access token with `expiresAt = 1000` still verifies successfully
at `now = 1000`, although the claim requires verification to fail when
`now` equals `expires_at` exactly. -/
theorem C2_counterexample :
    ¬(1000 < 1000) ∧
    (verifyAccessToken exampleTokenState "t" 1000).isOk = true := by
  decide

/-- **C2** (amended): `verifyAccessToken` succeeds iff the token is
present, its kind is not `"refresh"`, and `now ≤ expires_at` — the expiry
boundary is exclusive, so at `now = expires_at` the token is still
accepted — and every failure is the single invalid-or-expired error (the
spec's `InvalidToken`). -/
theorem C2_verifyAccessToken_ok_iff (st : ProviderState) (t : String)
    (now : Nat) :
    ((verifyAccessToken st t now).isOk = true ↔
      ∃ td, mapGet st.tokens t = some td ∧ now ≤ td.expiresAt ∧
        td.type ≠ "refresh") ∧
    ((verifyAccessToken st t now).isOk = false →
      verifyAccessToken st t now = .error .invalidOrExpiredToken) := by
  cases h : mapGet st.tokens t with
  | none =>
    rw [verifyAccessToken_absent st t now h]
    simp [h, Except.isOk, Except.toBool]
  | some td =>
    rw [verifyAccessToken_found st t now td h]
    by_cases hc : td.expiresAt < now ∨ td.type = "refresh"
    · rw [if_pos hc]
      refine ⟨?_, fun _ => rfl⟩
      simp [h, Except.isOk, Except.toBool]
      intro hle
      rcases hc with hlt | heq
      · exact absurd hle (by omega)
      · exact heq
    · rw [if_neg hc]
      push_neg at hc
      obtain ⟨hc1, hc2⟩ := hc
      refine ⟨?_, ?_⟩
      · simp [h, Except.isOk, Except.toBool]
        exact ⟨by omega, hc2⟩
      · intro hfalse
        simp [Except.isOk, Except.toBool] at hfalse

/-- Witness for C2 (amended): concrete instantiation at the stored token
`t` and instant 500 (present, unexpired, kind `access`). -/
theorem C2_verifyAccessToken_ok_iff_witness :
    ((verifyAccessToken exampleTokenState "t" 500).isOk = true ↔
      ∃ td, mapGet exampleTokenState.tokens "t" = some td ∧
        500 ≤ td.expiresAt ∧ td.type ≠ "refresh") :=
  (C2_verifyAccessToken_ok_iff exampleTokenState "t" 500).1

/-- **C3.** A code produced by `authorize` is exchangeable by the issuing
client exactly once: the first exchange by that client succeeds (any
verifier), and after *any* successful exchange the code record has been
deleted, so a repeated exchange of the same code — by any client, any
verifier, any instant — fails with the invalid-code error (the spec's
`InvalidGrant`). -/
theorem C3_code_single_use (st : ProviderState)
    (c c₁ : OAuthClientInformationFull) (p : AuthorizationParams)
    (code : String) (v v₁ : Option String) (now now₁ : Nat)
    (tok tok₁ : String) :
    (exchangeAuthorizationCode (authorize st c p code).1 c code v now
        tok).2.isOk = true ∧
    (∀ st₀ c₀ v₀ now₀ tok₀ resp,
      (exchangeAuthorizationCode st₀ c₀ code v₀ now₀ tok₀).2 = .ok resp →
      (exchangeAuthorizationCode
          (exchangeAuthorizationCode st₀ c₀ code v₀ now₀ tok₀).1
          c₁ code v₁ now₁ tok₁).2 = .error .invalidAuthorizationCode) := by
  constructor
  · have h1 : mapGet (authorize st c p code).1.codes code = some ⟨p, c⟩ := by
      rw [authorize_fst]
      exact mapGet_mapSet_self st.codes code ⟨p, c⟩
    rw [exchangeAuthorizationCode_found _ c code v now tok ⟨p, c⟩ h1 rfl]
    rfl
  · intro st₀ c₀ v₀ now₀ tok₀ resp h
    obtain ⟨cd, hc, hid, hcodes⟩ :=
      exchangeAuthorizationCode_ok_inv st₀ c₀ code v₀ now₀ tok₀ resp h
    have hnone : mapGet
        (exchangeAuthorizationCode st₀ c₀ code v₀ now₀ tok₀).1.codes code
        = none := by
      rw [hcodes]
      exact mapGet_mapDelete_self st₀.codes code
    rw [exchangeAuthorizationCode_absent _ c₁ code v₁ now₁ tok₁ hnone]

/-- Witness for C3: after `authorize` issues `X` and the issuing client
exchanges it once, a second exchange of `X` is rejected with the
invalid-code error. -/
theorem C3_code_single_use_witness :
    (exchangeAuthorizationCode
        (exchangeAuthorizationCode
          (authorize initialState exampleClient exampleParams "X").1
          exampleClient "X" (some "verifier1") 0 "tok").1
        exampleClient "X" (some "verifier1") 0 "tok2").2
      = .error .invalidAuthorizationCode :=
  (C3_code_single_use initialState exampleClient exampleClient
      exampleParams "X" (some "verifier1") (some "verifier1") 0 0
      "tok" "tok2").2
    (authorize initialState exampleClient exampleParams "X").1
    exampleClient (some "verifier1") 0 "tok"
    ⟨"tok", "Bearer", 3600, "profile"⟩ (by decide)

/-- **C4**, counterexample: with requested params whose `redirect_uri`
differs from the client's registered one and whose `state` is present,
`authorize` produces a target built from `client.redirect_uris[0]` with
only the `code` query parameter — not the spec-described target (the
params' `redirect_uri` with `code` and `state` appended). -/
theorem C4_counterexample :
    (authorize initialState exampleClient divergentParams "X").2 ≠
      some (specAuthorizeRedirectTarget divergentParams "X") ∧
    (authorize initialState exampleClient divergentParams "X").2 =
      some ⟨"https://app.example.com/cb", [("code", "X")]⟩ := by
  exact ⟨by decide, rfl⟩

/-- **C4** (amended): the produced redirect target equals the client's
*first registered* redirect URI, `client.redirect_uris[0]`, with its query
replaced by the single parameter `code`; `params.redirect_uri` and
`params.state` are ignored.  The side effect is exactly one code record
keyed by the fresh code: the new key maps to `{params, client}`, all
other keys are unchanged, the code store grows by one entry (the code
being fresh), and the token store is untouched. -/
theorem C4_authorize_redirect (st : ProviderState)
    (c : OAuthClientInformationFull) (p : AuthorizationParams)
    (code : String) (u : UrlModel) (rest : List UrlModel)
    (hu : c.redirect_uris = u :: rest)
    (hfresh : mapGet st.codes code = none) :
    (authorize st c p code).2 = some ⟨u.base, [("code", code)]⟩ ∧
    mapGet (authorize st c p code).1.codes code = some ⟨p, c⟩ ∧
    (∀ k, k ≠ code →
      mapGet (authorize st c p code).1.codes k = mapGet st.codes k) ∧
    (authorize st c p code).1.codes.length = st.codes.length + 1 ∧
    (authorize st c p code).1.tokens = st.tokens := by
  refine ⟨?_, ?_, ?_, ?_, ?_⟩
  · simp [authorize, hu]
  · rw [authorize_fst]
    exact mapGet_mapSet_self st.codes code ⟨p, c⟩
  · intro k hk
    rw [authorize_fst]
    exact mapGet_mapSet_ne st.codes code k ⟨p, c⟩ hk
  · rw [authorize_fst]
    exact mapSet_length_of_fresh st.codes code ⟨p, c⟩ hfresh
  · rw [authorize_fst]

/-- Witness for C4 (amended): issuing code `X` to the scenario client
sends the browser to the registered callback with `?code=X`, and leaves
the token store alone. -/
theorem C4_authorize_redirect_witness :
    (authorize initialState exampleClient exampleParams "X").2 =
      some ⟨cbUri.base, [("code", "X")]⟩ ∧
    (authorize initialState exampleClient exampleParams "X").1.tokens =
      initialState.tokens :=
  ⟨(C4_authorize_redirect initialState exampleClient exampleParams "X"
      cbUri [] (by decide) (by decide)).1,
   (C4_authorize_redirect initialState exampleClient exampleParams "X"
      cbUri [] (by decide) (by decide)).2.2.2.2⟩

/-- **C10.** In every reachable state of the in-memory provider, every
record of the token store has kind `"access"` (with its `expiresAt`
always a finite instant by construction), since
`exchangeAuthorizationCode` — the only operation inserting tokens — only
writes records with `type := "access"`; consequently the
`type = "refresh"` rejection branch of `verifyAccessToken` is
unreachable: on reachable states, a failed verification is always due to
the token being absent or expired. -/
theorem C10_tokens_all_access (st : ProviderState) (h : Reachable st) :
    (∀ q ∈ st.tokens, q.2.type = "access") ∧
    (∀ t now, (verifyAccessToken st t now).isOk = false →
      mapGet st.tokens t = none ∨
      ∃ td, mapGet st.tokens t = some td ∧ td.expiresAt < now) := by
  have hinv : ∀ q ∈ st.tokens, q.2.type = "access" := by
    induction h with
    | refl => intro q hq; cases hq
    | @tail b c hab hbc ih =>
      cases hbc with
      | authorize client params code =>
        rw [authorize_fst]
        intro q hq
        exact ih q hq
      | exchangeCode client ac v now tok =>
        rcases exchangeAuthorizationCode_fst_tokens b client ac v now tok
          with heq | ⟨cd, hc, heq⟩
        · intro q hq
          rw [heq] at hq
          exact ih q hq
        · intro q hq
          rw [heq] at hq
          rcases mem_mapSet _ _ _ q hq with rfl | hq'
          · rfl
          · exact ih q hq'
      | exchangeRefresh client rt s =>
        intro q hq
        exact ih q hq
  refine ⟨hinv, ?_⟩
  intro t now hfail
  cases hg : mapGet st.tokens t with
  | none => exact Or.inl rfl
  | some td =>
    right
    refine ⟨td, rfl, ?_⟩
    obtain ⟨q, hqmem, hq1, hq2⟩ := mapGet_mem st.tokens t td hg
    have htype : td.type = "access" := hq2 ▸ hinv q hqmem
    by_contra hlt
    push_neg at hlt
    have hok : (verifyAccessToken st t now).isOk = true := by
      rw [verifyAccessToken_found st t now td hg, if_neg]
      · rfl
      · rintro (h1 | h2)
        · omega
        · rw [htype] at h2
          exact absurd h2 (by decide)
    rw [hok] at hfail
    cases hfail

/-- Witness for C10: the state reached by `authorize` followed by a
successful exchange is reachable, and its stored token record (for the
minted token `tok`) has kind `access`. -/
theorem C10_tokens_all_access_witness :
    (("tok", ⟨"tok", "c1", ["profile"], 3600000, "access"⟩) :
        String × TokenData).2.type = "access" :=
  (C10_tokens_all_access reachedState
    (Relation.ReflTransGen.tail
      (Relation.ReflTransGen.tail Relation.ReflTransGen.refl
        (Step.authorize initialState exampleClient exampleParams "X"))
      (Step.exchangeCode
        (authorize initialState exampleClient exampleParams "X").1
        exampleClient "X" none 0 "tok"))).1
    ("tok", ⟨"tok", "c1", ["profile"], 3600000, "access"⟩) (by decide)
